import Mathlib

/-!
Verification of SPHinXsys components against their specification.

Shallow embedding of:
* the level-set engine interface of `src/shared/geometries/level_set.h`
  (composite sweep schedules, upwind differencing, multilevel dispatch,
  out-of-bounds probing) — the header only declares these members, so the
  corresponding definitions are modelled from the specification text;
* the entity registry of `src/shared/common/sphinxsys_entity.h`
  (`findVariableByName`, `ConstantEntity` device mirrors);
* the 3-D mesh iterators of `src/for_3D_build/meshes/mesh_iterators.hpp`
  (plain and strided sweeps, modelled by their traces of visited cells);
* the bar dynamics of
  `src/for_3D_build/particle_dynamics/solid_dynamics/slender_structure_dynamics.cpp`
  (indexing of `width_` / `thickness_` in `BarStressRelaxationFirstHalf` and the
  `BarAcousticTimeStepSize` constructor).

`Real` is embedded as `ℚ`: every comparison and arithmetic operation used by the
embedded code is exact and decidable, and no claim below depends on rounding.
-/

namespace SPH

/-! ### Level-set sweep schedules (claim C1) -/

/-- The seven construction-phase sweeps of the level-set engine, numbered 1-7 in
spec section 4.3.  `level_set.h:106-113` declares one member object per sweep;
constructor names match the source's template arguments up to capitalisation,
except that the sweeps the source spells with the word "Initialize" are
abbreviated here to `initCellData` / `reinitLevelSet`. -/
inductive Sweep where
  | initCellData : Sweep
  | updateLevelSetGradient : Sweep
  | diffuseLevelSetSign : Sweep
  | reinitLevelSet : Sweep
  | markNearInterface : Sweep
  | redistanceInterface : Sweep
  | updateKernelIntegrals : Sweep
  deriving DecidableEq, Repr

/-- Modelled from the spec: `LevelSet::cleanInterface(small_shift_factor)`
(declared at `level_set.h:86`; the member function body is not among the given
sources).  Spec section 4.3: "`cleanInterface` runs 5→4→2→7" with "parameters
... threaded uniformly through every sweep"; the schedule is embedded as the
list of (sweep, parameter) pairs executed in order. -/
def cleanInterface (small_shift_factor : ℚ) : List (Sweep × ℚ) :=
  [(.markNearInterface, small_shift_factor),
   (.reinitLevelSet, small_shift_factor),
   (.updateLevelSetGradient, small_shift_factor),
   (.updateKernelIntegrals, small_shift_factor)]

/-- Modelled from the spec: `LevelSet::correctTopology(small_shift_factor)`
(declared at `level_set.h:87`; body not among the given sources).  Spec section
4.3: "`correctTopology` runs 3→2→4→2→5→6→7", parameters threaded uniformly. -/
def correctTopology (small_shift_factor : ℚ) : List (Sweep × ℚ) :=
  [(.diffuseLevelSetSign, small_shift_factor),
   (.updateLevelSetGradient, small_shift_factor),
   (.reinitLevelSet, small_shift_factor),
   (.updateLevelSetGradient, small_shift_factor),
   (.markNearInterface, small_shift_factor),
   (.redistanceInterface, small_shift_factor),
   (.updateKernelIntegrals, small_shift_factor)]

/-! ### Upwind differencing (claim C2) -/

/-- Modelled from the spec: `LevelSet::upwindDifference(sign, df_p, df_n)`
(declared at `level_set.h:116`; body not among the given sources).  Spec
section 4.3 item 4 gives the selection rule verbatim:
if `sign * df_p < 0` and `sign * df_n < -sign * df_p` use `df_n`,
else if `sign * df_n > 0` and `sign * df_p > -sign * df_n` use `df_p`,
else 0. -/
def upwindDifference (sign df_p df_n : ℚ) : ℚ :=
  if sign * df_p < 0 ∧ sign * df_n < -sign * df_p then df_n
  else if sign * df_n > 0 ∧ sign * df_p > -sign * df_n then df_p
  else 0

/-! ### Mesh field variable lookup (claim C5) -/

/-- A registered variable handle: `BaseEntity` stores `name_`
(`sphinxsys_entity.h:39-49`); the payload stands for the rest of the concrete
variable object. -/
structure Entity (α : Type) where
  name : String
  value : α
  deriving DecidableEq, Repr

/-- `findVariableByName` (`sphinxsys_entity.h:179-190`): `std::find_if` over the
variables registered for the data type, comparing `variable->Name() == name`;
the found handle is returned, and the `nullptr` returned when the name is
absent is embedded as `none`. -/
def findVariableByName {α : Type} (vars : List (Entity α)) (name : String) :
    Option (Entity α) :=
  vars.find? fun v => v.name == name

/-! ### Constant entities and device mirrors (claim C6) -/

/-- `ConstantEntity` (`sphinxsys_entity.h:80-109`): a host value plus an
optional device mirror; `device_value_` is `nullptr` until `setDeviceData`,
embedded as `none`. -/
structure ConstantEntity (α : Type) where
  name : String
  value : α
  device_value : Option α
  deriving DecidableEq, Repr

/-- The `ConstantEntity` constructor (`sphinxsys_entity.h:84-85`):
`value_(new DataType(value)), device_value_(nullptr)`. -/
def ConstantEntity.make {α : Type} (name : String) (value : α) :
    ConstantEntity α :=
  ⟨name, value, none⟩

/-- `existDeviceData` (`sphinxsys_entity.h:88`): `device_value_ != nullptr`. -/
def ConstantEntity.existDeviceData {α : Type} (e : ConstantEntity α) : Bool :=
  e.device_value.isSome

/-- `setDeviceData` (`sphinxsys_entity.h:89`): stores the device pointer. -/
def ConstantEntity.setDeviceData {α : Type} (e : ConstantEntity α) (data : α) :
    ConstantEntity α :=
  { e with device_value := some data }

/-- `DeviceDataAddress` (`sphinxsys_entity.h:90-99`): if no device data exists,
the source prints an error quoting `name_` and calls `exit(1)` — embedded as
`Except.error` carrying the message text (the source wraps the name in single
quotes; the surrounding words are kept verbatim); otherwise the stored device
pointer is returned. -/
def ConstantEntity.DeviceDataAddress {α : Type} (e : ConstantEntity α) :
    Except String α :=
  match e.device_value with
  | none => .error ("Error: the constant entity " ++ e.name ++
      " not allocated on device yet!")
  | some d => .ok d

/-- The execution policies relevant to `DataAddress` dispatch. -/
inductive ExecutionPolicy where
  | SequencedPolicy : ExecutionPolicy
  | ParallelPolicy : ExecutionPolicy
  | ParallelDevicePolicy : ExecutionPolicy
  deriving DecidableEq, Repr

/-- The `DataAddress` overloads (`sphinxsys_entity.h:101-104`): every generic
policy returns the host `value_` (never an error); the
`execution::ParallelDevicePolicy` overload calls `DeviceDataAddress()`. -/
def ConstantEntity.DataAddress {α : Type} (e : ConstantEntity α)
    (policy : ExecutionPolicy) : Except String α :=
  match policy with
  | .ParallelDevicePolicy => e.DeviceDataAddress
  | _ => .ok e.value

/-! ### Bar stress relaxation indexing (claim C9)

`BarStressRelaxationFirstHalf::initialization`
(`slender_structure_dynamics.cpp:129-237`) loops over Gaussian points with
inner index `i` inside the body for particle `index_i`.  The claim is about
which index each `width_` / `thickness_` subscript uses, so the embedding
keeps, per Gaussian point, exactly the scalar factors through which those two
arrays enter; the matrix-valued factors they multiply (`F_bending_` etc.) are
carried as scalars since they do not touch `width_` / `thickness_`.  Arrays
are embedded as functions from the index. -/

/-- Lines 178-179, inside the Gaussian-point loop:
`numerical_damping_scaling_matrix_(1,1) = width_[i] < smoothing_length_ ? width_[i] : smoothing_length_;`
`numerical_damping_scaling_matrix_(2,2) = thickness_[i] < smoothing_length_ ? thickness_[i] : smoothing_length_;`
The particle index `index_i` of the enclosing member function is also passed so
that the dependence result below can speak about it; the source subscript on
both lines is the Gaussian loop variable `i`. -/
def numerical_damping_scaling_update (width thickness : ℕ → ℚ)
    (smoothing_length : ℚ) (index_i i : ℕ) : ℚ × ℚ :=
  (if width i < smoothing_length then width i else smoothing_length,
   if thickness i < smoothing_length then thickness i else smoothing_length)

/-- Every other factor of the Gaussian-point loop body through which `width_`
or `thickness_` enters, in source order:
component 1: `gaussian_point_y[i] * ... * thickness_[index_i] * 0.5`
  (lines 165 and 167 share this shape);
component 2: `gaussian_point_x[i] * ... * width_[index_i] * 0.5`
  (lines 166 and 168);
component 3: the integration prefactor
  `0.5 * width_[index_i] * 0.5 * thickness_[index_i] * gaussian_weight_[i]`
  (lines 199-208);
component 4: the moment arm of line 202,
  prefactor `* gaussian_point_y[i] * thickness_[index_i] * 0.5`;
component 5: the b-moment arm of line 204,
  prefactor `* gaussian_point_x[i] * width_[index_i] * 0.5`. -/
def gaussOtherUses (width thickness gp_x gp_y gaussian_weight : ℕ → ℚ)
    (index_i i : ℕ) : ℚ × ℚ × ℚ × ℚ × ℚ :=
  (gp_y i * thickness index_i * (1/2),
   gp_x i * width index_i * (1/2),
   (1/2) * width index_i * (1/2) * thickness index_i * gaussian_weight i,
   (1/2) * width index_i * (1/2) * thickness index_i * gaussian_weight i *
     (gp_y i * thickness index_i * (1/2)),
   (1/2) * width index_i * (1/2) * thickness index_i * gaussian_weight i *
     (gp_x i * width index_i * (1/2)))

/-- Example width/thickness array: value 2 at index 1, value 5 elsewhere. -/
def exampleArrayA : ℕ → ℚ := fun j => if j = 1 then 2 else 5

/-- Example array differing from `exampleArrayA` only at index 1. -/
def exampleArrayB : ℕ → ℚ := fun j => if j = 1 then 3 else 5

/-- Example array differing from `exampleArrayA` only at index 0. -/
def exampleArrayC : ℕ → ℚ := fun j => if j = 1 then 2 else 7

/-! ### Bar acoustic time step constructor (claim C10) -/

/-- The members of `BarParticles` read by the `BarAcousticTimeStepSize`
constructor that matter to the claim: the particles hold a `thickness_`
array and a distinct `width_` array (`BaseBarRelaxation` reads
`particles_->width_` at `slender_structure_dynamics.cpp:74`). -/
structure BarParticles where
  thickness_ : ℕ → ℚ
  width_ : ℕ → ℚ

/-- The members of `BarAcousticTimeStepSize` relevant to the claim. -/
structure BarAcousticTimeStepSize where
  thickness_ : ℕ → ℚ
  width_ : ℕ → ℚ
  CFL_ : ℚ

/-- The `BarAcousticTimeStepSize` constructor
(`slender_structure_dynamics.cpp:8-24`): the member initializer list binds
`thickness_(particles_->thickness_)` (line 16) and — on line 24 —
`width_(particles_->thickness_)`: the `width_` member is initialised from the
particles' thickness array, not from `particles_->width_`. -/
def BarAcousticTimeStepSize.make (particles : BarParticles) (CFL : ℚ) :
    BarAcousticTimeStepSize :=
  { thickness_ := particles.thickness_
    width_ := particles.thickness_
    CFL_ := CFL }

/-- Example particle set whose width and thickness arrays differ everywhere. -/
def exampleBarParticles : BarParticles :=
  { thickness_ := fun _ => 2
    width_ := fun _ => 9 }

/-! ### Multilevel dispatch (claim C3) -/

/-- Integer clamp to the interval `[lo, hi]`. -/
def clampInt (x lo hi : ℤ) : ℤ := max lo (min x hi)

/-- Modelled from the spec: `MultilevelLevelSet::getCoarseLevel(h_ratio)`
(declared at `level_set.h:151`; body not among the given sources), taken
literally from the displayed formula of spec section 4.6:
`clamp(floor(log2(h_ratio)), 0, K-1)` where `K` is `total_levels`.
`Int.log 2` is the floor of the base-2 logarithm on positive rationals. -/
def getCoarseLevelSpecFormula (total_levels : ℕ) (h_ratio : ℚ) : ℤ :=
  clampInt (Int.log 2 h_ratio) 0 ((total_levels : ℤ) - 1)

/-- Modelled from the spec: `MultilevelLevelSet::getCoarseLevel(h_ratio)` with
the sign of the logarithm corrected to `clamp(floor(log2(1/h_ratio)), 0, K-1)`.
The spec's displayed formula (embedded verbatim as
`getCoarseLevelSpecFormula`) contradicts the spec's own gloss "finer level for
smaller smoothing support" and its worked example routing `h_ratio = 0.25` to
level 2 (section 8, "Multilevel dispatch"); this definition follows the gloss
and the example. -/
def getCoarseLevel (total_levels : ℕ) (h_ratio : ℚ) : ℤ :=
  clampInt (Int.log 2 h_ratio⁻¹) 0 ((total_levels : ℤ) - 1)

/-! ### Out-of-bounds probing (claim C4) -/

/-- A probe position (`Vecd`, three components). -/
abbrev Vec3 := ℚ × ℚ × ℚ

/-- A `BoundingBox`: lower and upper corners. -/
structure BoundingBox3 where
  first : Vec3
  second : Vec3
  deriving DecidableEq, Repr

/-- Modelled from the spec: the bounding-box membership test behind
`probeIsWithinMeshBound` (spec section 4.4: "bounding-box test"), componentwise
`first ≤ p < second`. -/
def isWithinBound (bb : BoundingBox3) (p : Vec3) : Bool :=
  decide (bb.first.1 ≤ p.1) && decide (p.1 < bb.second.1) &&
  decide (bb.first.2.1 ≤ p.2.1) && decide (p.2.1 < bb.second.2.1) &&
  decide (bb.first.2.2 ≤ p.2.2) && decide (p.2.2 < bb.second.2.2)

/-- Modelled from the spec: the sentinel returned by out-of-bounds probes.
Spec sections 4.1/7: probes outside `tentative_bounds` "return the bound's far
sign with `|phi| = +∞`" — positive, since the tentative bounds enclose the
geometry plus buffer, so everything beyond them lies far outside the body.
The infinite magnitude is embedded as a large finite constant. -/
def farFieldSentinel : ℚ := 10 ^ 15

/-- The state of a constructed level set needed by the probe claims: its
`tentative_bounds` and the in-bounds interpolation of `phi` (whose details are
irrelevant to claim C4). -/
structure LevelSetState where
  tentative_bounds : BoundingBox3
  interior_phi : Vec3 → ℚ

/-- Modelled from the spec: `LevelSet::probeIsWithinMeshBound(position)`
(declared at `level_set.h:88`; body not among the given sources): the
bounding-box test against `tentative_bounds`. -/
def probeIsWithinMeshBound (ls : LevelSetState) (position : Vec3) : Bool :=
  isWithinBound ls.tentative_bounds position

/-- Modelled from the spec: `LevelSet::probeSignedDistance(position)`
(declared at `level_set.h:89`; body not among the given sources): inside the
mesh bound, multilinear interpolation of `phi`; outside, the probe is not an
error and yields the positive far-field sentinel.  The function is total: no
error path exists. -/
def probeSignedDistance (ls : LevelSetState) (position : Vec3) : ℚ :=
  if probeIsWithinMeshBound ls position then ls.interior_phi position
  else farFieldSentinel

/-- Example level set on the unit-sphere scenario bounds `[-1.5, 1.5]^3` of
spec section 8. -/
def exampleLevelSet : LevelSetState :=
  { tentative_bounds := ⟨(-(3/2), -(3/2), -(3/2)), (3/2, 3/2, 3/2)⟩
    interior_phi := fun _ => 0 }

/-! ### 3-D mesh iterators (claim C7)

The iterators of `mesh_iterators.hpp` apply `local_function` to cell indices
through nested loops; each iterator is embedded by its trace — the list of
`Array3i` arguments passed to `local_function`, in order.  The C++ axis loops
(`for (int i = lower; i != upper; ++i)` in `mesh_for`,
`for (auto i = lower + off; i < upper; i += stride)` in the strided sweeps)
terminate and enumerate `[lower, upper)` exactly when `lower ≤ upper` and the
stride is positive, which the claim theorem assumes. -/

/-- A cell index (`Array3i`). -/
abbrev Array3i := ℤ × ℤ × ℤ

/-- A `MeshRange`: the pair of lower and upper cell-index corners. -/
abbrev MeshRange := Array3i × Array3i

/-- One ascending axis loop `for (i = lower; i != upper; ++i)`: the values
`lower, lower + 1, ..., upper - 1` in order. -/
def axisRange (lower upper : ℤ) : List ℤ :=
  (List.range (upper - lower).toNat).map fun t : ℕ => lower + (t : ℤ)

/-- The number of iterations of the strided axis loop
`for (i = lower + off; i < upper; i += stride)`: the ceiling of
`(upper - lower - off) / stride` clamped below by 0, computed in ℕ. -/
def strideCount (lower upper stride off : ℤ) : ℕ :=
  ((upper - (lower + off)).toNat + (stride.toNat - 1)) / stride.toNat

/-- One strided axis loop `for (i = lower + off; i < upper; i += stride)`:
the arithmetic progression it visits, in order. -/
def axisStride (lower upper stride off : ℤ) : List ℤ :=
  (List.range (strideCount lower upper stride off)).map
    fun t : ℕ => lower + off + (t : ℤ) * stride

/-- Triple loop nesting: the trace of
`for i in la: for j in lb: for k in lc: visit (i, j, k)`. -/
def nest3 (la lb lc : List ℤ) : List Array3i :=
  la.flatMap fun i => lb.flatMap fun j => lc.map fun k => (i, j, k)

/-- `mesh_for` (`mesh_iterators.hpp:67-76`): the plain triple nested ascending
loop over `[first, second)`. -/
def mesh_for (mesh_range : MeshRange) : List Array3i :=
  nest3 (axisRange mesh_range.1.1 mesh_range.2.1)
    (axisRange mesh_range.1.2.1 mesh_range.2.2.1)
    (axisRange mesh_range.1.2.2 mesh_range.2.2.2)

/-- The three strided inner loops shared by the forward and backward sweeps
(`mesh_iterators.hpp:103-108` and `132-137`): the cells visited for one fixed
offset triple, in ascending order per axis. -/
def strideBlock (mesh_range : MeshRange) (stride off : Array3i) :
    List Array3i :=
  nest3 (axisStride mesh_range.1.1 mesh_range.2.1 stride.1 off.1)
    (axisStride mesh_range.1.2.1 mesh_range.2.2.1 stride.2.1 off.2.1)
    (axisStride mesh_range.1.2.2 mesh_range.2.2.2 stride.2.2 off.2.2)

/-- The offset triples `(m, n, p) ∈ [0, stride)^3` in the ascending
lexicographic order of the outer loops of `mesh_stride_forward_for`
(`mesh_iterators.hpp:100-102`). -/
def offsetsForward (stride : Array3i) : List Array3i :=
  nest3 (axisRange 0 stride.1) (axisRange 0 stride.2.1)
    (axisRange 0 stride.2.2)

/-- The offset triples of `mesh_stride_backward_for`
(`mesh_iterators.hpp:129-131`, `for (int m = stride[0]; m > 0; m--)` with the
inner loops starting at `first + m - 1`): each axis contributes the offsets
`stride - 1, ..., 0`, i.e. the descending enumeration. -/
def offsetsBackward (stride : Array3i) : List Array3i :=
  nest3 (axisRange 0 stride.1).reverse (axisRange 0 stride.2.1).reverse
    (axisRange 0 stride.2.2).reverse

/-- `mesh_stride_forward_for` (`mesh_iterators.hpp:97-109`): offset triples
ascending in the three outer loops, then the strided inner loops with that
fixed offset. -/
def mesh_stride_forward_for (mesh_range : MeshRange) (stride : Array3i) :
    List Array3i :=
  (offsetsForward stride).flatMap (strideBlock mesh_range stride)

/-- `mesh_stride_backward_for` (`mesh_iterators.hpp:126-138`): offset triples
descending in the three outer loops, same strided inner loops. -/
def mesh_stride_backward_for (mesh_range : MeshRange) (stride : Array3i) :
    List Array3i :=
  (offsetsBackward stride).flatMap (strideBlock mesh_range stride)

end SPH

namespace SPH

/-! ## Theorems -/

/-- C1: `cleanInterface(small_shift_factor)` executes exactly the sweep
sequence MarkNearInterface, ReinitializeLevelSet, UpdateLevelSetGradient,
UpdateKernelIntegrals in that order, and `correctTopology(small_shift_factor)`
executes exactly DiffuseLevelSetSign, UpdateLevelSetGradient,
ReinitializeLevelSet, UpdateLevelSetGradient, MarkNearInterface,
RedistanceInterface, UpdateKernelIntegrals in that order, with
`small_shift_factor` passed uniformly to every sweep of both schedules. -/
theorem cleanInterface_correctTopology_schedules (small_shift_factor : ℚ) :
    (cleanInterface small_shift_factor).map Prod.fst =
      [.markNearInterface, .reinitLevelSet, .updateLevelSetGradient,
       .updateKernelIntegrals] ∧
    (correctTopology small_shift_factor).map Prod.fst =
      [.diffuseLevelSetSign, .updateLevelSetGradient, .reinitLevelSet,
       .updateLevelSetGradient, .markNearInterface, .redistanceInterface,
       .updateKernelIntegrals] ∧
    (cleanInterface small_shift_factor).map Prod.snd =
      List.replicate 4 small_shift_factor ∧
    (correctTopology small_shift_factor).map Prod.snd =
      List.replicate 7 small_shift_factor := by
  refine ⟨rfl, rfl, rfl, rfl⟩

/-- C2: for every sign value and every pair of forward/backward differences,
`upwindDifference(sign, df_p, df_n)` returns `df_n` when
`sign * df_p < 0` and `sign * df_n < -sign * df_p`; returns `df_p` when
`sign * df_n > 0` and `sign * df_p > -sign * df_n`; and returns 0 in every
other case.  (The two guard conjunctions are mutually exclusive, so the
unordered reading of the claim agrees with the if/else-if rule.) -/
theorem upwindDifference_cases (sign df_p df_n : ℚ) :
    (sign * df_p < 0 ∧ sign * df_n < -(sign * df_p) →
      upwindDifference sign df_p df_n = df_n) ∧
    (sign * df_n > 0 ∧ sign * df_p > -(sign * df_n) →
      upwindDifference sign df_p df_n = df_p) ∧
    (¬(sign * df_p < 0 ∧ sign * df_n < -(sign * df_p)) ∧
     ¬(sign * df_n > 0 ∧ sign * df_p > -(sign * df_n)) →
      upwindDifference sign df_p df_n = 0) := by
  unfold upwindDifference
  refine ⟨fun h1 => ?_, fun h2 => ?_, fun h0 => ?_⟩
  · rw [if_pos (by constructor <;> linarith [h1.1, h1.2])]
  · have hnot1 : ¬(sign * df_p < 0 ∧ sign * df_n < -sign * df_p) := by
      rintro ⟨ha, hb⟩
      have := h2.1
      have := h2.2
      linarith
    rw [if_neg hnot1, if_pos (by constructor <;> linarith [h2.1, h2.2])]
  · rw [if_neg (by rintro ⟨ha, hb⟩; exact h0.1 ⟨ha, by linarith⟩),
      if_neg (by rintro ⟨ha, hb⟩; exact h0.2 ⟨ha, by linarith⟩)]

/-- Witness for C2: at `sign = 1`, `df_p = -1`, `df_n = -2` the first guard
holds and the backward difference is selected. -/
theorem upwindDifference_cases_witness :
    upwindDifference 1 (-1) (-2) = -2 :=
  (upwindDifference_cases 1 (-1) (-2)).1 (by norm_num)

/-- C5: `findVariableByName` applied to a name not present among the registered
variables never yields a variable handle: for every registry state and every
unknown name the lookup returns `none` (the source's `nullptr`), never a usable
handle. -/
theorem findVariableByName_unknown_none {α : Type} (vars : List (Entity α))
    (name : String) (h : ∀ v ∈ vars, v.name ≠ name) :
    findVariableByName vars name = none := by
  unfold findVariableByName
  rw [List.find?_eq_none]
  intro v hv
  simpa using h v hv

/-- Witness for C5: looking up the unregistered name "Mass" in a registry
holding "Velocity" and "Force" returns `none`. -/
theorem findVariableByName_unknown_none_witness :
    findVariableByName [⟨"Velocity", (1 : ℤ)⟩, ⟨"Force", 2⟩] "Mass" = none :=
  findVariableByName_unknown_none _ "Mass" (by decide)

/-- C6: a device-side read before synchronisation is fatal: whenever a
`ConstantEntity` has no device data (in particular, any freshly constructed
entity, on which `setDeviceData` has not been called), `DataAddress` under the
parallel-device execution policy produces the fatal error whose message names
the entity; after `setDeviceData` it returns the stored device pointer without
error. -/
theorem constantEntity_device_read (α : Type) (e : ConstantEntity α) (d : α)
    (name : String) (value : α) :
    (e.device_value = none →
      e.DataAddress .ParallelDevicePolicy =
        .error ("Error: the constant entity " ++ e.name ++
          " not allocated on device yet!")) ∧
    (ConstantEntity.make name value).device_value = none ∧
    (e.setDeviceData d).DataAddress .ParallelDevicePolicy = .ok d := by
  refine ⟨fun h => ?_, rfl, rfl⟩
  simp [ConstantEntity.DataAddress, ConstantEntity.DeviceDataAddress, h]

/-- Witness for C6: a freshly made integer constant entity fails the device
read with the message naming it, and succeeds after `setDeviceData`. -/
theorem constantEntity_device_read_witness :
    (ConstantEntity.make "Gravity" (3 : ℤ)).DataAddress .ParallelDevicePolicy =
      .error "Error: the constant entity Gravity not allocated on device yet!" ∧
    ((ConstantEntity.make "Gravity" (3 : ℤ)).setDeviceData 5).DataAddress
      .ParallelDevicePolicy = .ok 5 := by
  refine ⟨?_, (constantEntity_device_read ℤ (.make "Gravity" 3) 5 "x" 0).2.2⟩
  exact (constantEntity_device_read ℤ (.make "Gravity" 3) 5 "x" 0).1 rfl

/-- C9: in `BarStressRelaxationFirstHalf::initialization`, the
numerical-damping scaling entries (lines 178-179) are computed from
`width_[i]` and `thickness_[i]` with the inner Gaussian-point index `i` —
they depend only on entry `i` of the arrays and not on the particle index
`index_i` — while every other use of `width_` and `thickness_` in the same
loop is subscripted by `index_i` — those factors depend only on entry
`index_i`.  The concrete instance (arrays agreeing at `index_i = 0`, differing
at `i = 1`) shows the damping entries genuinely read entry `i` while the other
factors are unaffected. -/
theorem bar_damping_scaling_uses_gaussian_index :
    (∀ (w w' t t' : ℕ → ℚ) (sl : ℚ) (index_i index_i' i : ℕ),
      w i = w' i → t i = t' i →
      numerical_damping_scaling_update w t sl index_i i =
        numerical_damping_scaling_update w' t' sl index_i' i) ∧
    (∀ (w w' t t' gp_x gp_y gw : ℕ → ℚ) (index_i i : ℕ),
      w index_i = w' index_i → t index_i = t' index_i →
      gaussOtherUses w t gp_x gp_y gw index_i i =
        gaussOtherUses w' t' gp_x gp_y gw index_i i) ∧
    numerical_damping_scaling_update exampleArrayA exampleArrayA 10 0 1 ≠
      numerical_damping_scaling_update exampleArrayB exampleArrayB 10 0 1 ∧
    gaussOtherUses exampleArrayA exampleArrayA (fun _ => 1) (fun _ => 1)
        (fun _ => 1) 0 1 =
      gaussOtherUses exampleArrayB exampleArrayB (fun _ => 1) (fun _ => 1)
        (fun _ => 1) 0 1 := by
  refine ⟨?_, ?_, ?_, ?_⟩
  · intro w w' t t' sl index_i index_i' i hw ht
    simp [numerical_damping_scaling_update, hw, ht]
  · intro w w' t t' gp_x gp_y gw index_i i hw ht
    simp [gaussOtherUses, hw, ht]
  · intro h
    have := congrArg Prod.fst h
    simp [numerical_damping_scaling_update, exampleArrayA, exampleArrayB] at this
    norm_num at this
  · rfl

/-- Witness for C9: applying the dependence statement at concrete arrays that
agree at the Gaussian index 1 but differ at the particle index 0: the damping
entries coincide. -/
theorem bar_damping_scaling_uses_gaussian_index_witness :
    numerical_damping_scaling_update exampleArrayA exampleArrayA 10 0 1 =
      numerical_damping_scaling_update exampleArrayC exampleArrayC 10 7 1 :=
  bar_damping_scaling_uses_gaussian_index.1 exampleArrayA exampleArrayC
    exampleArrayA exampleArrayC 10 0 7 1 rfl rfl

/-- C10: after the `BarAcousticTimeStepSize` constructor runs, its `width_`
member is the particles' `thickness_` array, so the width and thickness values
it reads are identical at every particle index — even for particles whose own
`width_` array differs from their `thickness_` array, as the concrete instance
shows. -/
theorem barAcousticTimeStepSize_width_is_thickness :
    (∀ (particles : BarParticles) (CFL : ℚ) (index_i : ℕ),
      (BarAcousticTimeStepSize.make particles CFL).width_ index_i =
        (BarAcousticTimeStepSize.make particles CFL).thickness_ index_i) ∧
    (BarAcousticTimeStepSize.make exampleBarParticles 1).width_ 0 =
      exampleBarParticles.thickness_ 0 ∧
    exampleBarParticles.width_ 0 ≠ exampleBarParticles.thickness_ 0 := by
  refine ⟨fun particles CFL index_i => rfl, rfl, by norm_num [exampleBarParticles]⟩

/-- Counterexample for C3: the claim asserts both that `getCoarseLevel`
computes `clamp(floor(log2(h_ratio)), 0, K-1)` and that with `K = 3` a probe
with `h_ratio = 0.25` is routed to level 2; but the displayed formula yields
`clamp(-2, 0, 2) = 0 ≠ 2` at that very input, so the claim as stated is false
at `h_ratio = 1/4`, `K = 3`. -/
theorem getCoarseLevelSpecFormula_counterexample :
    getCoarseLevelSpecFormula 3 (1/4) = 0 ∧ getCoarseLevelSpecFormula 3 (1/4) ≠ 2 := by
  have hclog : Nat.clog 2 4 = 2 := by
    have h1 : Nat.clog 2 4 ≤ 2 :=
      (Nat.le_pow_iff_clog_le (by norm_num)).1 (by norm_num)
    have h2 : 1 < Nat.clog 2 4 :=
      (Nat.pow_lt_iff_lt_clog (by norm_num)).1 (by norm_num)
    omega
  have hlog : Int.log 2 ((1 : ℚ)/4) = -2 := by
    have h4 : ((1 : ℚ)/4) = ((4 : ℚ))⁻¹ := by norm_num
    have hc : ((4 : ℚ)) = ((4 : ℕ) : ℚ) := by norm_num
    rw [h4, Int.log_inv, hc, Int.clog_natCast, hclog]
    norm_num
  unfold getCoarseLevelSpecFormula clampInt
  rw [hlog]
  norm_num

/-- C3 (amended): `getCoarseLevel(h_ratio)` returns
`clamp(floor(log2(1/h_ratio)), 0, K-1)` where `K` is the number of levels, and
this selects a finer (higher-index) level for smaller smoothing support: the
selected level is antitone in `h_ratio`, and in particular with `K = 3` a
probe with `h_ratio = 1` is routed to level 0 and a probe with
`h_ratio = 0.25` is routed to level 2. -/
theorem getCoarseLevel_dispatch :
    (∀ (total_levels : ℕ) (h_ratio : ℚ),
      getCoarseLevel total_levels h_ratio =
        clampInt (Int.log 2 h_ratio⁻¹) 0 ((total_levels : ℤ) - 1)) ∧
    (∀ (total_levels : ℕ) (h₁ h₂ : ℚ), 0 < h₁ → h₁ ≤ h₂ →
      getCoarseLevel total_levels h₂ ≤ getCoarseLevel total_levels h₁) ∧
    getCoarseLevel 3 1 = 0 ∧ getCoarseLevel 3 (1/4) = 2 := by
  refine ⟨fun _ _ => rfl, ?_, ?_, ?_⟩
  · intro total_levels h₁ h₂ hpos hle
    have hpos₂ : 0 < h₂ := lt_of_lt_of_le hpos hle
    have hinv : h₂⁻¹ ≤ h₁⁻¹ := by
      rw [inv_le_inv₀ hpos₂ hpos]
      exact hle
    have hlog := Int.log_mono_right (b := 2) (inv_pos.2 hpos₂) hinv
    exact max_le_max le_rfl (min_le_min hlog le_rfl)
  · have h1 : Int.log 2 ((1 : ℚ))⁻¹ = 0 := by
      rw [inv_one, Int.log_one_right]
    unfold getCoarseLevel clampInt
    rw [h1]
    norm_num
  · have h4 : ((1 : ℚ)/4)⁻¹ = ((4 : ℕ) : ℚ) := by norm_num
    have hlog : Int.log 2 (((1 : ℚ)/4))⁻¹ = 2 := by
      rw [h4, Int.log_natCast]
      exact_mod_cast Nat.log_eq_of_pow_le_of_lt_pow (by norm_num) (by norm_num)
    unfold getCoarseLevel clampInt
    rw [hlog]
    norm_num

/-- Witness for C3 (amended): halving the smoothing-length ratio from 1 to 1/2
cannot route to a coarser level. -/
theorem getCoarseLevel_dispatch_witness :
    getCoarseLevel 3 1 ≤ getCoarseLevel 3 (1/2) :=
  getCoarseLevel_dispatch.2.1 3 (1/2) 1 (by norm_num) (by norm_num)

/-- C4: for every position outside `tentative_bounds`, `probeSignedDistance`
does not raise an error (it is total) and returns the far-field sentinel — a
value of large magnitude (at least `10^10`) and positive sign, the far sign of
the bound — and `probeIsWithinMeshBound` returns `false` for exactly those
positions. -/
theorem probeSignedDistance_out_of_bounds :
    (∀ (ls : LevelSetState) (position : Vec3),
      isWithinBound ls.tentative_bounds position = false →
        probeSignedDistance ls position = farFieldSentinel ∧
        0 < probeSignedDistance ls position ∧
        (10 : ℚ)^10 ≤ probeSignedDistance ls position) ∧
    (∀ (ls : LevelSetState) (position : Vec3),
      probeIsWithinMeshBound ls position = false ↔
        isWithinBound ls.tentative_bounds position = false) := by
  constructor
  · intro ls position h
    have hval : probeSignedDistance ls position = farFieldSentinel := by
      unfold probeSignedDistance probeIsWithinMeshBound
      rw [h]
      simp
    refine ⟨hval, ?_, ?_⟩ <;> rw [hval] <;> norm_num [farFieldSentinel]
  · exact fun ls position => Iff.rfl

/-- Witness for C4: the probe at `(100, 0, 0)`, outside the unit-sphere bounds
`[-1.5, 1.5]^3`, returns the positive sentinel and is reported out of bound. -/
theorem probeSignedDistance_out_of_bounds_witness :
    probeSignedDistance exampleLevelSet (100, 0, 0) = farFieldSentinel ∧
    0 < probeSignedDistance exampleLevelSet (100, 0, 0) ∧
    probeIsWithinMeshBound exampleLevelSet (100, 0, 0) = false := by
  have h : isWithinBound exampleLevelSet.tentative_bounds (100, 0, 0) = false := by
    rw [Bool.eq_false_iff]
    intro htrue
    simp only [isWithinBound, exampleLevelSet, Bool.and_eq_true,
      decide_eq_true_eq] at htrue
    norm_num at htrue
  obtain ⟨h1, h2, -⟩ :=
    probeSignedDistance_out_of_bounds.1 exampleLevelSet (100, 0, 0) h
  exact ⟨h1, h2, h⟩

/-! ### Mesh iterator lemmas (claim C7) -/

theorem mem_axisRange {lower upper x : ℤ} :
    x ∈ axisRange lower upper ↔ lower ≤ x ∧ x < upper := by
  simp only [axisRange, List.mem_map, List.mem_range]
  constructor
  · rintro ⟨t, ht, rfl⟩
    omega
  · intro hx
    exact ⟨(x - lower).toNat, by omega, by omega⟩

theorem axisRange_nodup (lower upper : ℤ) : (axisRange lower upper).Nodup :=
  (List.nodup_range _).map fun a b hab => by omega

theorem lt_strideCount_iff {lower upper stride off : ℤ} (hs : 1 ≤ stride)
    (t : ℕ) :
    t < strideCount lower upper stride off ↔
      lower + off + (t : ℤ) * stride < upper := by
  have h0 : 0 < stride.toNat := by omega
  unfold strideCount
  rw [Nat.lt_iff_add_one_le, Nat.le_div_iff_mul_le h0]
  have h1 : (t + 1) * stride.toNat = t * stride.toNat + stride.toNat := by
    ring
  rw [h1]
  have h2 : ((t * stride.toNat : ℕ) : ℤ) = (t : ℤ) * stride := by
    push_cast
    have h3 : ((stride.toNat : ℤ)) = stride := by omega
    rw [h3]
  omega

theorem mem_axisStride {lower upper stride off x : ℤ} (hs : 1 ≤ stride) :
    x ∈ axisStride lower upper stride off ↔
      ∃ t : ℕ, x = lower + off + (t : ℤ) * stride ∧ x < upper := by
  simp only [axisStride, List.mem_map, List.mem_range]
  constructor
  · rintro ⟨t, ht, rfl⟩
    exact ⟨t, rfl, (lt_strideCount_iff hs t).1 ht⟩
  · rintro ⟨t, rfl, hx⟩
    exact ⟨t, (lt_strideCount_iff hs t).2 hx, rfl⟩

theorem axisStride_nodup (lower upper stride off : ℤ) (hs : 1 ≤ stride) :
    (axisStride lower upper stride off).Nodup := by
  refine (List.nodup_range _).map ?_
  intro a b hab
  have h := add_left_cancel hab
  have h2 : (a : ℤ) = b := mul_right_cancel₀ (by omega : stride ≠ 0) h
  exact_mod_cast h2

theorem axisStride_bounds_emod {lower upper stride off x : ℤ} (hs : 1 ≤ stride)
    (h0 : 0 ≤ off) (hlt : off < stride)
    (hx : x ∈ axisStride lower upper stride off) :
    (x - lower) % stride = off ∧ lower ≤ x ∧ x < upper := by
  obtain ⟨t, rfl, hup⟩ := (mem_axisStride hs).1 hx
  have hmul : 0 ≤ (t : ℤ) * stride :=
    mul_nonneg (by omega) (by omega)
  refine ⟨?_, by omega, hup⟩
  have h1 : lower + off + (t : ℤ) * stride - lower = off + (t : ℤ) * stride := by
    ring
  rw [h1, Int.add_mul_emod_self]
  exact Int.emod_eq_of_lt h0 hlt

theorem axisStride_complete {lower upper stride x : ℤ} (hs : 1 ≤ stride)
    (hlo : lower ≤ x) (hhi : x < upper) :
    x ∈ axisStride lower upper stride ((x - lower) % stride) := by
  rw [mem_axisStride hs]
  refine ⟨((x - lower) / stride).toNat, ?_, hhi⟩
  have hemod := Int.emod_add_ediv (x - lower) stride
  have hdiv0 : 0 ≤ (x - lower) / stride :=
    Int.ediv_nonneg (by omega) (by omega)
  rw [Int.toNat_of_nonneg hdiv0]
  have hm : stride * ((x - lower) / stride) = (x - lower) / stride * stride := by
    ring
  linarith [hemod, hm]

theorem mem_axisRange_iff_offsets {lower upper stride x : ℤ}
    (hs : 1 ≤ stride) :
    x ∈ axisRange lower upper ↔
      ∃ off, off ∈ axisRange 0 stride ∧
        x ∈ axisStride lower upper stride off := by
  constructor
  · intro hx
    rw [mem_axisRange] at hx
    refine ⟨(x - lower) % stride, ?_, axisStride_complete hs hx.1 hx.2⟩
    rw [mem_axisRange]
    exact ⟨Int.emod_nonneg _ (by omega), Int.emod_lt_of_pos _ (by omega)⟩
  · rintro ⟨off, hoff, hx⟩
    rw [mem_axisRange] at hoff ⊢
    obtain ⟨t, rfl, hup⟩ := (mem_axisStride hs).1 hx
    have hmul : 0 ≤ (t : ℤ) * stride :=
      mul_nonneg (by omega) (by omega)
    omega

theorem mem_nest3 {la lb lc : List ℤ} {x : Array3i} :
    x ∈ nest3 la lb lc ↔ x.1 ∈ la ∧ x.2.1 ∈ lb ∧ x.2.2 ∈ lc := by
  obtain ⟨a, b, c⟩ := x
  simp only [nest3, List.mem_flatMap, List.mem_map]
  constructor
  · rintro ⟨i, hi, j, hj, k, hk, heq⟩
    cases heq
    exact ⟨hi, hj, hk⟩
  · rintro ⟨ha, hb, hc⟩
    exact ⟨a, ha, b, hb, c, hc, rfl⟩

theorem nest3_nodup {la lb lc : List ℤ} (ha : la.Nodup) (hb : lb.Nodup)
    (hc : lc.Nodup) : (nest3 la lb lc).Nodup := by
  rw [nest3, List.nodup_flatMap]
  constructor
  · intro i _
    rw [List.nodup_flatMap]
    constructor
    · intro j _
      refine hc.map ?_
      intro k k' hkk
      simpa using hkk
    · refine hb.imp ?_
      intro j j' hne x hx hx'
      simp only [List.mem_map] at hx hx'
      obtain ⟨k, -, rfl⟩ := hx
      obtain ⟨k', -, heq⟩ := hx'
      simp only [Prod.mk.injEq] at heq
      exact hne heq.2.1.symm
  · refine ha.imp ?_
    intro a a' hne x hx hx'
    simp only [List.mem_flatMap, List.mem_map] at hx hx'
    obtain ⟨j, -, k, -, rfl⟩ := hx
    obtain ⟨j', -, k', -, heq⟩ := hx'
    simp only [Prod.mk.injEq] at heq
    exact hne heq.1.symm

theorem mesh_for_nodup (mesh_range : MeshRange) : (mesh_for mesh_range).Nodup :=
  nest3_nodup (axisRange_nodup _ _) (axisRange_nodup _ _) (axisRange_nodup _ _)

/-- The bounds satisfied by every offset triple of either enumeration. -/
def offsetInStride (stride o : Array3i) : Prop :=
  (0 ≤ o.1 ∧ o.1 < stride.1) ∧ (0 ≤ o.2.1 ∧ o.2.1 < stride.2.1) ∧
    (0 ≤ o.2.2 ∧ o.2.2 < stride.2.2)

theorem mem_offsetsForward {stride o : Array3i} :
    o ∈ offsetsForward stride ↔ offsetInStride stride o := by
  unfold offsetsForward offsetInStride
  rw [mem_nest3, mem_axisRange, mem_axisRange, mem_axisRange]

theorem mem_offsetsBackward {stride o : Array3i} :
    o ∈ offsetsBackward stride ↔ offsetInStride stride o := by
  unfold offsetsBackward offsetInStride
  rw [mem_nest3, List.mem_reverse, List.mem_reverse, List.mem_reverse,
    mem_axisRange, mem_axisRange, mem_axisRange]

theorem offsetsForward_nodup (stride : Array3i) :
    (offsetsForward stride).Nodup :=
  nest3_nodup (axisRange_nodup _ _) (axisRange_nodup _ _) (axisRange_nodup _ _)

theorem offsetsBackward_nodup (stride : Array3i) :
    (offsetsBackward stride).Nodup :=
  nest3_nodup (List.nodup_reverse.2 (axisRange_nodup _ _))
    (List.nodup_reverse.2 (axisRange_nodup _ _))
    (List.nodup_reverse.2 (axisRange_nodup _ _))

theorem strideBlock_offset_emod {mesh_range : MeshRange} {stride o : Array3i}
    (hs1 : 1 ≤ stride.1) (hs2 : 1 ≤ stride.2.1) (hs3 : 1 ≤ stride.2.2)
    (ho : offsetInStride stride o) {x : Array3i}
    (hx : x ∈ strideBlock mesh_range stride o) :
    (x.1 - mesh_range.1.1) % stride.1 = o.1 ∧
    (x.2.1 - mesh_range.1.2.1) % stride.2.1 = o.2.1 ∧
    (x.2.2 - mesh_range.1.2.2) % stride.2.2 = o.2.2 := by
  obtain ⟨h1, h2, h3⟩ := mem_nest3.1 hx
  exact ⟨(axisStride_bounds_emod hs1 ho.1.1 ho.1.2 h1).1,
    (axisStride_bounds_emod hs2 ho.2.1.1 ho.2.1.2 h2).1,
    (axisStride_bounds_emod hs3 ho.2.2.1 ho.2.2.2 h3).1⟩

theorem offsets_flat_perm (mesh_range : MeshRange) (stride : Array3i)
    (offs : List Array3i)
    (hs1 : 1 ≤ stride.1) (hs2 : 1 ≤ stride.2.1) (hs3 : 1 ≤ stride.2.2)
    (hmem : ∀ o : Array3i, o ∈ offs ↔ offsetInStride stride o)
    (hnd : offs.Nodup) :
    (offs.flatMap (strideBlock mesh_range stride)).Perm
        (mesh_for mesh_range) ∧
      (offs.flatMap (strideBlock mesh_range stride)).Nodup := by
  have hblock : ∀ o : Array3i, (strideBlock mesh_range stride o).Nodup :=
    fun o => nest3_nodup (axisStride_nodup _ _ _ _ hs1)
      (axisStride_nodup _ _ _ _ hs2) (axisStride_nodup _ _ _ _ hs3)
  have hflatnd : (offs.flatMap (strideBlock mesh_range stride)).Nodup := by
    rw [List.nodup_flatMap]
    refine ⟨fun o _ => hblock o, ?_⟩
    refine List.Pairwise.imp_of_mem ?_ hnd
    intro o o' ho ho' hne x hx hx'
    obtain ⟨ha, hb, hc⟩ :=
      strideBlock_offset_emod hs1 hs2 hs3 ((hmem o).1 ho) hx
    obtain ⟨ha', hb', hc'⟩ :=
      strideBlock_offset_emod hs1 hs2 hs3 ((hmem o').1 ho') hx'
    apply hne
    obtain ⟨o1, o2, o3⟩ := o
    obtain ⟨o1', o2', o3'⟩ := o'
    simp only [Prod.mk.injEq]
    exact ⟨ha.symm.trans ha', hb.symm.trans hb', hc.symm.trans hc'⟩
  refine ⟨(List.perm_ext_iff_of_nodup hflatnd (mesh_for_nodup mesh_range)).2
    ?_, hflatnd⟩
  intro x
  rw [List.mem_flatMap]
  unfold mesh_for
  rw [mem_nest3]
  constructor
  · rintro ⟨o, ho, hx⟩
    obtain ⟨ho1, ho2, ho3⟩ := (hmem o).1 ho
    obtain ⟨h1, h2, h3⟩ := mem_nest3.1 hx
    exact ⟨(mem_axisRange_iff_offsets hs1).2
        ⟨o.1, mem_axisRange.2 ⟨ho1.1, ho1.2⟩, h1⟩,
      (mem_axisRange_iff_offsets hs2).2
        ⟨o.2.1, mem_axisRange.2 ⟨ho2.1, ho2.2⟩, h2⟩,
      (mem_axisRange_iff_offsets hs3).2
        ⟨o.2.2, mem_axisRange.2 ⟨ho3.1, ho3.2⟩, h3⟩⟩
  · rintro ⟨h1, h2, h3⟩
    obtain ⟨o1, ho1, hx1⟩ := (mem_axisRange_iff_offsets hs1).1 h1
    obtain ⟨o2, ho2, hx2⟩ := (mem_axisRange_iff_offsets hs2).1 h2
    obtain ⟨o3, ho3, hx3⟩ := (mem_axisRange_iff_offsets hs3).1 h3
    rw [mem_axisRange] at ho1 ho2 ho3
    refine ⟨(o1, o2, o3), (hmem (o1, o2, o3)).2 ⟨ho1, ho2, ho3⟩, ?_⟩
    exact mem_nest3.2 ⟨hx1, hx2, hx3⟩

theorem offsetsBackward_eq_reverse (stride : Array3i) :
    offsetsBackward stride = (offsetsForward stride).reverse := by
  unfold offsetsBackward offsetsForward nest3
  rw [List.reverse_flatMap]
  congr 1
  funext i
  rw [Function.comp_apply, List.reverse_flatMap]
  congr 1
  funext j
  rw [Function.comp_apply, List.map_reverse]

/-- C7: for every mesh range (with `first ≤ second`, the regime in which the
`!=`-guarded loops of `mesh_for` are meaningful) and every positive stride
vector, the forward-strided iteration `mesh_stride_forward_for` and the
backward-strided iteration `mesh_stride_backward_for` each visit exactly the
same set of cell indices as the plain `mesh_for` over that range — their
traces are permutations of the duplicate-free `mesh_for` trace, so every local
function is applied to the same cells, each exactly once — partitioned by
stride offset: both strided traces are the concatenation, offset triple by
offset triple, of the fixed-offset blocks, with the offsets enumerated
sequentially ascending `(m, n, p) ∈ [0, stride)^3` for forward and in the
reversed (descending) order for backward, and every cell of an offset's block
has exactly that offset, so only cells sharing one fixed offset are
interleaved within a block. -/
theorem mesh_stride_for_equivalence (mesh_range : MeshRange)
    (stride : Array3i)
    (_hr1 : mesh_range.1.1 ≤ mesh_range.2.1)
    (_hr2 : mesh_range.1.2.1 ≤ mesh_range.2.2.1)
    (_hr3 : mesh_range.1.2.2 ≤ mesh_range.2.2.2)
    (hs1 : 1 ≤ stride.1) (hs2 : 1 ≤ stride.2.1) (hs3 : 1 ≤ stride.2.2) :
    (mesh_stride_forward_for mesh_range stride).Perm (mesh_for mesh_range) ∧
    (mesh_stride_backward_for mesh_range stride).Perm (mesh_for mesh_range) ∧
    (mesh_for mesh_range).Nodup ∧
    (mesh_stride_forward_for mesh_range stride).Nodup ∧
    (mesh_stride_backward_for mesh_range stride).Nodup ∧
    mesh_stride_forward_for mesh_range stride =
      (offsetsForward stride).flatMap (strideBlock mesh_range stride) ∧
    mesh_stride_backward_for mesh_range stride =
      ((offsetsForward stride).reverse).flatMap
        (strideBlock mesh_range stride) ∧
    (∀ o ∈ offsetsForward stride, ∀ x ∈ strideBlock mesh_range stride o,
      (x.1 - mesh_range.1.1) % stride.1 = o.1 ∧
      (x.2.1 - mesh_range.1.2.1) % stride.2.1 = o.2.1 ∧
      (x.2.2 - mesh_range.1.2.2) % stride.2.2 = o.2.2) := by
  obtain ⟨hfp, hfn⟩ := offsets_flat_perm mesh_range stride
    (offsetsForward stride) hs1 hs2 hs3 (fun o => mem_offsetsForward)
    (offsetsForward_nodup stride)
  obtain ⟨hbp, hbn⟩ := offsets_flat_perm mesh_range stride
    (offsetsBackward stride) hs1 hs2 hs3 (fun o => mem_offsetsBackward)
    (offsetsBackward_nodup stride)
  refine ⟨hfp, hbp, mesh_for_nodup mesh_range, hfn, hbn, rfl, ?_, ?_⟩
  · unfold mesh_stride_backward_for
    rw [offsetsBackward_eq_reverse]
  · intro o ho x hx
    exact strideBlock_offset_emod hs1 hs2 hs3 (mem_offsetsForward.1 ho) hx

/-- Witness for C7: the range `[0,3) × [0,2) × [0,2)` with stride `(2,1,2)`:
both strided sweeps visit the same twelve cells as the plain sweep. -/
theorem mesh_stride_for_equivalence_witness :
    (mesh_stride_forward_for ((0, 0, 0), (3, 2, 2)) (2, 1, 2)).Perm
        (mesh_for ((0, 0, 0), (3, 2, 2))) ∧
      (mesh_stride_backward_for ((0, 0, 0), (3, 2, 2)) (2, 1, 2)).Perm
        (mesh_for ((0, 0, 0), (3, 2, 2))) := by
  obtain ⟨h1, h2, -⟩ := mesh_stride_for_equivalence ((0, 0, 0), (3, 2, 2))
    (2, 1, 2) (by norm_num) (by norm_num) (by norm_num) (by norm_num)
    (by norm_num) (by norm_num)
  exact ⟨h1, h2⟩

end SPH
